import Mathlib

/-!
Verification development for the chat-client synchronization engine of the
AI Desk frontend. The definitions below are a shallow embedding of the
TypeScript source files:
  frontend/src/types.ts            (Message, ChatSession shapes)
  frontend/src/hooks/useChat.ts    (useChat: connectWebSocket, loadSession,
                                    createSession, sendMessage)
  frontend/src/api/client.ts       (endpoints)
  frontend/src/components/ChatInterface.tsx (metrics effect)
JavaScript numbers are modelled as exact rationals, message identifiers as
naturals, and the asynchronous network boundary as explicit environment
inputs recording whether each request succeeds and what it returns. The
React state updates of the hook become explicit state passing on a
ChatState record; network requests and console logging are recorded as
traces in the result.
-/

/-- Evaluation scores attached to a message (types.ts, evaluation_scores). -/
structure EvaluationScores where
  faithfulness : Rat
  answer_relevancy : Rat
  deriving Repr, DecidableEq

/-- The Message record of frontend/src/types.ts. Optional fields of the
TypeScript interface become Option values. -/
structure Message where
  id : Nat
  content : String
  sender : String
  timestamp : String
  file_url : Option String := none
  file_name : Option String := none
  token_count : Option Nat := none
  cost : Option Rat := none
  carbon_footprint : Option Rat := none
  evaluation_scores : Option EvaluationScores := none
  is_flagged : Option Bool := none
  deriving Repr, DecidableEq

/-- The ChatSession record of frontend/src/types.ts. -/
structure ChatSession where
  id : String
  title : String
  created_at : String
  messages : List Message
  deriving Repr, DecidableEq

/-- The metrics snapshot produced by the metrics effect in
ChatInterface.tsx and consumed by App/Layout. -/
structure Metrics where
  totalTokens : Nat
  totalCost : Rat
  totalCarbon : Rat
  deriving Repr, DecidableEq

/-- The metrics effect of ChatInterface.tsx: three reduces over the full
message list, each adding the usage field of EVERY message with absent
values defaulted to zero (msg.token_count or 0, etc.). There is no filter
on the sender field in the source. -/
def computeMetrics (messages : List Message) : Metrics :=
  { totalTokens := messages.foldl (fun acc msg => acc + msg.token_count.getD 0) 0
    totalCost := messages.foldl (fun acc msg => acc + msg.cost.getD 0) 0
    totalCarbon := messages.foldl (fun acc msg => acc + msg.carbon_footprint.getD 0) 0 }

/-- Assistant-only aggregation, written from the words of the spec
(section 4.4): sum usage fields only over messages whose sender is
"assistant". This is the comparison definition for claim C1; the source
definition is computeMetrics above. -/
def specAssistantMetrics (messages : List Message) : Metrics :=
  let asst := messages.filter (fun msg => msg.sender = "assistant")
  { totalTokens := asst.foldl (fun acc msg => acc + msg.token_count.getD 0) 0
    totalCost := asst.foldl (fun acc msg => acc + msg.cost.getD 0) 0
    totalCarbon := asst.foldl (fun acc msg => acc + msg.carbon_footprint.getD 0) 0 }

/-- The optimistic append of sendMessage in useChat.ts:
setMessages(prev => [...prev, tempMsg]). Unconditional tail append. -/
def appendOptimistic (prev : List Message) (msg : Message) : List Message :=
  prev ++ [msg]

/-- The ingest step of the ws.onmessage handler in useChat.ts:
if some entry with the same id exists the previous list is returned
unchanged, otherwise the payload is appended at the tail. -/
def ingest (prev : List Message) (payload : Message) : List Message :=
  match prev.find? (fun m => m.id == payload.id) with
  | some _ => prev
  | none => prev ++ [payload]

/-- An inbound WebSocket frame as seen by ws.onmessage. JSON.parse either
throws (a payload that is not JSON) or yields a value whose type field may
be absent or any string; frames of kind "message" carry a message-shaped
payload (the only case the claims exercise). -/
inductive Frame where
  | notJson (raw : String)
  | envelope (ty : Option String) (payload : Message)
  deriving Repr, DecidableEq

/-- Result of running the ws.onmessage handler: whether an exception
escaped the handler, and the message log afterwards. -/
structure HandlerResult where
  threw : Bool
  log : List Message
  deriving Repr, DecidableEq

/-- The ws.onmessage handler of connectWebSocket in useChat.ts. The
handler has no try/catch: JSON.parse on a non-JSON payload throws and the
exception escapes the handler, leaving the log untouched. A parsed frame
is ingested only when data.type is the string "message"; all other frames
fall through with no state change. -/
def onMessage (prev : List Message) (frame : Frame) : HandlerResult :=
  match frame with
  | Frame.notJson _ => { threw := true, log := prev }
  | Frame.envelope ty payload =>
      if ty = some "message" then { threw := false, log := ingest prev payload }
      else { threw := false, log := prev }

/-- Identifiers occurring in a log. -/
def logIds (log : List Message) : List Nat :=
  log.map Message.id

/-- The log has no two entries with the same identifier. -/
def NodupIds (log : List Message) : Prop :=
  (logIds log).Nodup

instance : DecidablePred NodupIds := fun log =>
  inferInstanceAs (Decidable (logIds log).Nodup)

/-- One reconciler operation, as issued by sendMessage (append of the
optimistic entry) or by the push channel (ingest of a delivered payload). -/
inductive Op where
  | append (msg : Message)
  | ingestOp (msg : Message)
  deriving Repr, DecidableEq

/-- Apply one operation to the log. -/
def applyOp (log : List Message) : Op → List Message
  | Op.append m => appendOptimistic log m
  | Op.ingestOp m => ingest log m

/-- Apply a sequence of operations left to right. -/
def applyOps (log : List Message) (ops : List Op) : List Message :=
  ops.foldl applyOp log

/-- The precondition of claim C3: every append in the sequence uses an
identifier that is fresh at the moment the append is applied. -/
def FreshAppends : List Message → List Op → Prop
  | _, [] => True
  | log, op :: ops =>
      (match op with
       | Op.append m => ∀ x ∈ log, x.id ≠ m.id
       | Op.ingestOp _ => True) ∧ FreshAppends (applyOp log op) ops

-- basic sanity checks on the embedding
example : computeMetrics [] = { totalTokens := 0, totalCost := 0, totalCarbon := 0 } := by
  norm_num [computeMetrics]

example :
    (computeMetrics
      [{ id := 1, content := "hi", sender := "user", timestamp := "t", token_count := some 5 }]).totalTokens = 5 := by
  decide

example :
    ingest [{ id := 1, content := "a", sender := "user", timestamp := "t" }]
      { id := 1, content := "B", sender := "user", timestamp := "u" } =
      [{ id := 1, content := "a", sender := "user", timestamp := "t" }] := by
  decide

/-- JavaScript truthiness of an optional string: undefined and the empty
string are falsy, every other string is truthy. Used for the fileUrl tests
in sendMessage. -/
def jsStrTruthy : Option String → Bool
  | none => false
  | some s => !(s == "")

/-- The guard test !content.trim() of sendMessage: content.trim() is the
empty string exactly when every character of content is whitespace. -/
def jsTrimEmpty (s : String) : Bool :=
  s.data.all Char.isWhitespace

/-- The local state of the useChat hook: the three useState cells plus the
wsRef slot holding the session id the open WebSocket is addressed to. -/
structure ChatState where
  messages : List Message
  isLoading : Bool
  currentSessionId : Option String
  boundChannel : Option String
  deriving Repr, DecidableEq

/-- One HTTP request issued through apiClient, with the payload fields the
source passes (endpoints from api/client.ts). -/
inductive ApiCall where
  | postSessions (title : String)
  | postMessages (sessionId : String) (content : String) (sender : String)
  | postMessagesWithRag (sessionId : String) (content : String) (sender : String)
      (fileUrl : String) (fileName : Option String)
  deriving Repr, DecidableEq

/-- Environment of one send: what the network returns for each request the
send may issue, and the clock values read while building the optimistic
entry. createSessionResult is the id of the created session, or none when
POST /sessions fails; postMessageSucceeds tells whether the message
creation request settles successfully. -/
structure SendEnv where
  createSessionResult : Option String
  postMessageSucceeds : Bool
  now : Nat
  nowIso : String
  deriving Repr, DecidableEq

/-- Result of createSession: the state afterwards, the requests issued, the
console error lines, and the value the async function returns (the new
session id, or undefined when creation failed). -/
structure CreateResult where
  state : ChatState
  calls : List ApiCall
  console : List String
  returned : Option String
  deriving Repr, DecidableEq

/-- Result of sendMessage: the state afterwards, the requests issued and
the console error lines. The source function always resolves to undefined,
so there is no returned-value component. -/
structure SendResult where
  state : ChatState
  calls : List ApiCall
  console : List String
  deriving Repr, DecidableEq

/-- createSession of useChat.ts: POST /sessions with title "New Chat". On
success it stores the new session id, rebinds the WebSocket to it and
returns the id; on failure the error is caught, logged, and undefined is
returned with no state change. -/
def createSession (st : ChatState) (env : SendEnv) : CreateResult :=
  match env.createSessionResult with
  | some newId =>
      { state := { st with currentSessionId := some newId, boundChannel := some newId }
        calls := [ApiCall.postSessions "New Chat"]
        console := []
        returned := some newId }
  | none =>
      { state := st
        calls := [ApiCall.postSessions "New Chat"]
        console := ["Failed to create session"]
        returned := none }

/-- loadSession of useChat.ts: GET /sessions/sid. On success the response
messages replace the log and the session id is stored; on failure the
error is caught and logged, and no state is touched. The Option argument
is the network outcome of the GET. -/
def loadSession (st : ChatState) (sid : String) (result : Option ChatSession) :
    ChatState × List String :=
  match result with
  | some sess => ({ st with messages := sess.messages, currentSessionId := some sid }, [])
  | none => (st, ["Failed to load session"])

/-- sendMessage of useChat.ts, with the awaited network boundary made
explicit through SendEnv. Mirrors the source step by step: the
empty-content guard, the lazy session creation with early return on
failure, setIsLoading, the optimistic append of tempMsg with id Date.now,
the endpoint choice on fileUrl, the catch that only logs a failed creation
request, and the finally that clears isLoading. -/
def sendMessage (st : ChatState) (env : SendEnv) (content : String)
    (fileUrl : Option String) (fileName : Option String) : SendResult :=
  if jsTrimEmpty content = true ∧ jsStrTruthy fileUrl = false then
    { state := st, calls := [], console := [] }
  else
    let cr : CreateResult :=
      match st.currentSessionId with
      | some sid => { state := st, calls := [], console := [], returned := some sid }
      | none => createSession st env
    match cr.returned with
    | none => { state := cr.state, calls := cr.calls, console := cr.console }
    | some sid =>
        let tempMsg : Message :=
          { id := env.now, content := content, sender := "user", timestamp := env.nowIso
            file_url := fileUrl, file_name := fileName }
        let stMid : ChatState :=
          { cr.state with isLoading := true
                          messages := appendOptimistic cr.state.messages tempMsg }
        let call : ApiCall :=
          if jsStrTruthy fileUrl then
            ApiCall.postMessagesWithRag sid content "user" (fileUrl.getD "") fileName
          else
            ApiCall.postMessages sid content "user"
        let errLines : List String :=
          if env.postMessageSucceeds then [] else ["Failed to send message"]
        { state := { stMid with isLoading := false }
          calls := cr.calls ++ [call]
          console := cr.console ++ errLines }

/-- The message-creation requests among a list of calls (either endpoint
variant of api/client.ts). -/
def creationCalls (calls : List ApiCall) : List ApiCall :=
  calls.filter fun c =>
    match c with
    | ApiCall.postSessions _ => false
    | ApiCall.postMessages _ _ _ => true
    | ApiCall.postMessagesWithRag _ _ _ _ _ => true

-- sanity checks on the send pipeline embedding
example :
    sendMessage { messages := [], isLoading := false, currentSessionId := none, boundChannel := none }
      { createSessionResult := some "s1", postMessageSucceeds := true, now := 7, nowIso := "T" }
      "Hello" none none =
    { state := { messages := [{ id := 7, content := "Hello", sender := "user", timestamp := "T" }]
                 isLoading := false, currentSessionId := some "s1", boundChannel := some "s1" }
      calls := [ApiCall.postSessions "New Chat", ApiCall.postMessages "s1" "Hello" "user"]
      console := [] } := by
  decide

example :
    sendMessage { messages := [], isLoading := false, currentSessionId := none, boundChannel := none }
      { createSessionResult := some "s1", postMessageSucceeds := true, now := 7, nowIso := "T" }
      "   " none none =
    { state := { messages := [], isLoading := false, currentSessionId := none, boundChannel := none }
      calls := [], console := [] } := by
  decide

/-- A user message without usage fields, as in the spec example. -/
def exUserMsg : Message :=
  { id := 1, content := "hello", sender := "user", timestamp := "t0" }

/-- A user message carrying usage fields, probing the sender filter. -/
def exUserUsage : Message :=
  { id := 1, content := "hello", sender := "user", timestamp := "t0",
    token_count := some 5, cost := some 0.01, carbon_footprint := some 0.000001 }

/-- First assistant message of the spec example. -/
def exAsst1 : Message :=
  { id := 2, content := "r1", sender := "assistant", timestamp := "t1",
    token_count := some 10, cost := some 0.001, carbon_footprint := some 0.000001 }

/-- Second assistant message of the spec example. -/
def exAsst2 : Message :=
  { id := 3, content := "r2", sender := "assistant", timestamp := "t2",
    token_count := some 20, cost := some 0.002, carbon_footprint := some 0.000002 }

/-- A message colliding with exUserMsg on the identifier but with
different content, for the duplicate-ingest scenarios. -/
def exDup : Message :=
  { id := 1, content := "DIFFERENT", sender := "assistant", timestamp := "t9" }

/-- An environment where every request succeeds; the clock reads 42. -/
def exEnvOk : SendEnv :=
  { createSessionResult := some "s1", postMessageSucceeds := true, now := 42, nowIso := "T42" }

/-- An environment where session creation fails. -/
def exEnvNoSession : SendEnv :=
  { createSessionResult := none, postMessageSucceeds := true, now := 42, nowIso := "T42" }

/-- A state already bound to session s1 with an empty log. -/
def exBoundState : ChatState :=
  { messages := [], isLoading := false, currentSessionId := some "s1", boundChannel := some "s1" }

/-- A fresh state with no bound session. -/
def exFreshState : ChatState :=
  { messages := [], isLoading := false, currentSessionId := none, boundChannel := none }

-- helper lemmas shared by the claim theorems

/-- If some entry of the log already carries the id of the payload, ingest
returns the log unchanged. -/
theorem ingest_of_mem_id (prev : List Message) (m : Message)
    (h : ∃ x ∈ prev, x.id = m.id) : ingest prev m = prev := by
  obtain ⟨x, hx, hid⟩ := h
  unfold ingest
  cases hfind : prev.find? (fun y => y.id == m.id) with
  | some v => rfl
  | none =>
      exfalso
      have hnot := List.find?_eq_none.mp hfind x hx
      simp [hid] at hnot

/-- ingest either leaves the log unchanged or appends a payload whose id
is fresh for the log. -/
theorem ingest_eq_cases (log : List Message) (m : Message) :
    ingest log m = log ∨ (ingest log m = log ++ [m] ∧ ∀ x ∈ log, x.id ≠ m.id) := by
  unfold ingest
  cases hfind : log.find? (fun y => y.id == m.id) with
  | some v => exact Or.inl rfl
  | none =>
      refine Or.inr ⟨rfl, fun x hx heq => ?_⟩
      have hnot := List.find?_eq_none.mp hfind x hx
      simp [heq] at hnot

/-- Appending a message with a fresh id preserves uniqueness of ids. -/
theorem nodupIds_append (log : List Message) (m : Message)
    (hlog : NodupIds log) (hf : ∀ x ∈ log, x.id ≠ m.id) :
    NodupIds (log ++ [m]) := by
  unfold NodupIds logIds at *
  rw [List.map_append, List.nodup_append]
  refine ⟨hlog, List.nodup_singleton _, ?_⟩
  intro a ha hb
  simp only [List.map_cons, List.map_nil, List.mem_singleton] at hb
  obtain ⟨x, hx, rfl⟩ := List.mem_map.mp ha
  exact hf x hx hb

/-- ingest preserves uniqueness of ids unconditionally. -/
theorem ingest_nodupIds (log : List Message) (m : Message) (h : NodupIds log) :
    NodupIds (ingest log m) := by
  rcases ingest_eq_cases log m with heq | ⟨heq, hfresh⟩
  · rw [heq]; exact h
  · rw [heq]; exact nodupIds_append log m h hfresh

/-- FreshAppends restricts to the first part of a split sequence. -/
theorem freshAppends_of_append (log : List Message) (pre suf : List Op)
    (h : FreshAppends log (pre ++ suf)) : FreshAppends log pre := by
  induction pre generalizing log with
  | nil => trivial
  | cons op ops ih =>
      obtain ⟨h1, h2⟩ := h
      exact ⟨h1, ih (applyOp log op) h2⟩

/-- Running a sequence of fresh appends and ingests preserves uniqueness
of ids. -/
theorem applyOps_nodupIds (ops : List Op) (log : List Message)
    (hn : NodupIds log) (hf : FreshAppends log ops) :
    NodupIds (applyOps log ops) := by
  induction ops generalizing log with
  | nil => exact hn
  | cons op ops ih =>
      obtain ⟨h1, h2⟩ := hf
      have hstep : NodupIds (applyOp log op) := by
        cases op with
        | append m => exact nodupIds_append log m hn h1
        | ingestOp m => exact ingest_nodupIds log m hn
      exact ih (applyOp log op) hstep h2

-- claim theorems

/-- Claim C1, counterexample: the metrics effect of ChatInterface.tsx has
no sender filter, so a user message that carries usage fields does
contribute to the totals, contradicting the claim that user messages never
contribute. At the concrete log holding one user message with a token
count of 5, the source aggregation yields 5 total tokens while the
assistant-only aggregation of the claim yields 0. -/
theorem metrics_user_message_contributes :
    exUserUsage.sender = "user" ∧
    (computeMetrics [exUserUsage]).totalTokens = 5 ∧
    (specAssistantMetrics [exUserUsage]).totalTokens = 0 ∧
    computeMetrics [exUserUsage] ≠ specAssistantMetrics [exUserUsage] := by
  have h1 : (computeMetrics [exUserUsage]).totalTokens = 5 := by decide
  have h2 : (specAssistantMetrics [exUserUsage]).totalTokens = 0 := by decide
  refine ⟨rfl, h1, h2, fun h => ?_⟩
  rw [h, h2] at h1
  exact absurd h1 (by decide)

/-- Claim C1, amended: the aggregation is a pure function of the log that
sums token_count, cost and carbon_footprint over ALL messages regardless
of sender, treating absent values as zero; hence a message carrying no
usage fields (as user messages do in practice) contributes nothing,
wherever it sits in the log. -/
theorem metrics_sum_all_senders (l1 l2 : List Message) (m : Message)
    (htc : m.token_count = none) (hc : m.cost = none)
    (hcf : m.carbon_footprint = none) :
    computeMetrics (l1 ++ m :: l2) = computeMetrics (l1 ++ l2) := by
  simp [computeMetrics, List.foldl_append, htc, hc, hcf]

/-- Witness for the amended C1 on the spec example: dropping the user
message (no usage fields) does not change the totals, and the two
assistant messages alone account for the 30 total tokens. -/
theorem metrics_sum_all_senders_witness :
    computeMetrics ([] ++ exUserMsg :: [exAsst1, exAsst2]) =
      computeMetrics ([] ++ [exAsst1, exAsst2]) ∧
    (computeMetrics [exAsst1, exAsst2]).totalTokens = 30 :=
  ⟨metrics_sum_all_senders [] [exAsst1, exAsst2] exUserMsg rfl rfl rfl, by decide⟩

-- the full spec example, costs and carbon evaluated exactly
example :
    computeMetrics [exUserMsg, exAsst1, exAsst2] =
      { totalTokens := 30, totalCost := 0.003, totalCarbon := 0.000003 } := by
  norm_num [computeMetrics, exUserMsg, exAsst1, exAsst2]

/-- Claim C2: ingesting a push-delivered message frame whose identifier is
already present returns the log completely unchanged: the handler returns
the previous list itself, so length, contents and order are all
preserved and the ingested copy is discarded. -/
theorem push_duplicate_discarded (prev : List Message) (m : Message)
    (h : ∃ x ∈ prev, x.id = m.id) :
    onMessage prev (Frame.envelope (some "message") m) =
      { threw := false, log := prev } := by
  simp [onMessage, ingest_of_mem_id prev m h]

/-- Witness for C2: a log holding the id-1 user message, ingesting an
id-1 payload with different content leaves the log unchanged. -/
theorem push_duplicate_discarded_witness :
    onMessage [exUserMsg] (Frame.envelope (some "message") exDup) =
      { threw := false, log := [exUserMsg] } :=
  push_duplicate_discarded [exUserMsg] exDup ⟨exUserMsg, by decide, by decide⟩

/-- Claim C3: starting from a log with unique identifiers, any sequence of
appendOptimistic and ingest operations in which every append uses an
identifier fresh at the moment it is applied keeps identifiers unique
after every operation completes (stated for every split of the sequence,
so every intermediate log is covered). -/
theorem reconciler_ids_unique (log : List Message) (pre suf : List Op)
    (hn : NodupIds log) (hf : FreshAppends log (pre ++ suf)) :
    NodupIds (applyOps log pre) :=
  applyOps_nodupIds pre log hn (freshAppends_of_append log pre suf hf)

/-- Witness for C3: a concrete run of one fresh append followed by a
duplicate ingest keeps ids unique. -/
theorem reconciler_ids_unique_witness :
    NodupIds (applyOps [exUserMsg] [Op.append exAsst1, Op.ingestOp exDup]) :=
  reconciler_ids_unique [exUserMsg] [Op.append exAsst1, Op.ingestOp exDup] []
    (by decide) ⟨by decide, trivial, trivial⟩

/-- Claim C4, counterexample: the onmessage handler of connectWebSocket
calls JSON.parse with no try/catch, so a non-JSON frame makes the handler
throw, contradicting the claim that the handler never raises an error on
malformed frames. The log is nevertheless left unchanged. -/
theorem push_frame_nonjson_throws :
    onMessage [] (Frame.notJson "not json") = { threw := true, log := [] } := by
  decide

/-- Claim C4, amended: a JSON frame of any kind other than message is
dropped silently, with no error and no log change; a non-JSON frame makes
the handler throw an uncaught exception, but the log is still left
unchanged; only well-formed message envelopes can mutate the log. -/
theorem push_frame_filtering (prev : List Message) (frame : Frame) :
    (∀ raw, frame = Frame.notJson raw →
      onMessage prev frame = { threw := true, log := prev }) ∧
    (∀ ty p, frame = Frame.envelope ty p → ty ≠ some "message" →
      onMessage prev frame = { threw := false, log := prev }) := by
  constructor
  · rintro raw rfl
    rfl
  · rintro ty p rfl hty
    simp [onMessage, hty]

/-- Witness for the amended C4: a non-JSON frame throws with the log
unchanged; a typing-kind envelope is ignored without error. -/
theorem push_frame_filtering_witness :
    onMessage [] (Frame.notJson "garbage") = { threw := true, log := [] } ∧
    onMessage [] (Frame.envelope (some "typing") exDup) =
      { threw := false, log := [] } :=
  ⟨(push_frame_filtering [] (Frame.notJson "garbage")).1 "garbage" rfl,
   (push_frame_filtering [] (Frame.envelope (some "typing") exDup)).2
     (some "typing") exDup rfl (by decide)⟩

/-- Claim C5, counterexample: when the message-creation request fails
after the optimistic append, the catch block of sendMessage only logs the
error; the resulting state and request trace are identical to those of a
successful send, so no caller-visible failure signal exists. The
optimistic entry does remain in the log. -/
theorem send_failure_not_surfaced :
    (sendMessage exBoundState { exEnvOk with postMessageSucceeds := false }
        "hi" none none).state =
      (sendMessage exBoundState exEnvOk "hi" none none).state ∧
    (sendMessage exBoundState { exEnvOk with postMessageSucceeds := false }
        "hi" none none).calls =
      (sendMessage exBoundState exEnvOk "hi" none none).calls ∧
    (sendMessage exBoundState { exEnvOk with postMessageSucceeds := false }
        "hi" none none).state.messages =
      [{ id := 42, content := "hi", sender := "user", timestamp := "T42" }] ∧
    (sendMessage exBoundState { exEnvOk with postMessageSucceeds := false }
        "hi" none none).console = ["Failed to send message"] ∧
    (sendMessage exBoundState exEnvOk "hi" none none).console = [] := by
  refine ⟨by decide, by decide, by decide, by decide, by decide⟩

/-- Claim C5, amended: when the creation request fails after the
optimistic append, the optimistic entry remains in the log with no
rollback and no retry, and the failure is only written to the console:
the state and request trace of the failing send equal those of the
successful one, so the caller observes no failure signal. -/
theorem send_failure_keeps_optimistic (st : ChatState) (env : SendEnv)
    (content : String) (fileUrl fileName : Option String) (sid : String)
    (hsid : st.currentSessionId = some sid)
    (hguard : ¬(jsTrimEmpty content = true ∧ jsStrTruthy fileUrl = false)) :
    (sendMessage st { env with postMessageSucceeds := false }
        content fileUrl fileName).state.messages =
      st.messages ++ [{ id := env.now, content := content, sender := "user",
                        timestamp := env.nowIso, file_url := fileUrl,
                        file_name := fileName }] ∧
    (sendMessage st { env with postMessageSucceeds := false }
        content fileUrl fileName).state =
      (sendMessage st { env with postMessageSucceeds := true }
        content fileUrl fileName).state ∧
    (sendMessage st { env with postMessageSucceeds := false }
        content fileUrl fileName).calls =
      (sendMessage st { env with postMessageSucceeds := true }
        content fileUrl fileName).calls ∧
    (sendMessage st { env with postMessageSucceeds := false }
        content fileUrl fileName).console = ["Failed to send message"] := by
  refine ⟨?_, ?_, ?_, ?_⟩ <;>
    simp [sendMessage, hguard, hsid, appendOptimistic]

/-- Witness for the amended C5 at a concrete bound state and send. -/
theorem send_failure_keeps_optimistic_witness :
    (sendMessage exBoundState { exEnvOk with postMessageSucceeds := false }
        "hey" none none).console = ["Failed to send message"] :=
  (send_failure_keeps_optimistic exBoundState exEnvOk "hey" none none "s1"
    rfl (by decide)).2.2.2

/-- Claim C6: a send issued with no bound session id whose lazy session
creation fails is abandoned atomically: the state (log, busy flag, session
id, channel) is exactly the prior state and no message-creation request is
issued. -/
theorem send_abandoned_on_session_failure (st : ChatState) (env : SendEnv)
    (content : String) (fileUrl fileName : Option String)
    (hnone : st.currentSessionId = none)
    (hfail : env.createSessionResult = none) :
    (sendMessage st env content fileUrl fileName).state = st ∧
    creationCalls (sendMessage st env content fileUrl fileName).calls = [] := by
  by_cases hguard : jsTrimEmpty content = true ∧ jsStrTruthy fileUrl = false
  · simp [sendMessage, hguard, creationCalls]
  · simp [sendMessage, hguard, hnone, createSession, hfail, creationCalls]

/-- Witness for C6 at a fresh state with failing session creation. -/
theorem send_abandoned_on_session_failure_witness :
    (sendMessage exFreshState exEnvNoSession "hi" none none).state = exFreshState ∧
    creationCalls (sendMessage exFreshState exEnvNoSession "hi" none none).calls = [] :=
  send_abandoned_on_session_failure exFreshState exEnvNoSession "hi" none none rfl rfl

/-- A state holding one message and bound to session s0, the prior state
of the failed-load scenario. -/
def exLoadedState : ChatState :=
  { messages := [exUserMsg], isLoading := false,
    currentSessionId := some "s0", boundChannel := some "s0" }

/-- Claim C7, counterexample: a failed session load does not empty the
log; the catch block of loadSession performs no state update, so the
prior messages remain. With one prior message the post-state log is that
same singleton, not the empty list the claim requires. -/
theorem failed_load_not_emptied :
    (loadSession exLoadedState "s1" none).1.messages = [exUserMsg] ∧
    [exUserMsg] ≠ ([] : List Message) := by
  exact ⟨rfl, by decide⟩

/-- Claim C7, amended: a failed session load leaves the whole hook state
unchanged: the log keeps its prior contents (so it is empty only when it
was already empty, as on first mount) and only a console error is
reported. -/
theorem failed_load_leaves_state (st : ChatState) (sid : String) :
    (loadSession st sid none).1 = st ∧
    (loadSession st sid none).2 = ["Failed to load session"] :=
  ⟨rfl, rfl⟩

/-- Claim C8: a send whose content is empty or whitespace-only with no
attachment is a complete no-op: the returned state is the prior state and
no request of any kind is issued and nothing is logged. -/
theorem send_empty_noop (st : ChatState) (env : SendEnv) (content : String)
    (fileName : Option String) (h : jsTrimEmpty content = true) :
    sendMessage st env content none fileName =
      { state := st, calls := [], console := [] } := by
  simp [sendMessage, h, jsStrTruthy]

/-- Witness for C8: the empty send on a bound state. -/
theorem send_empty_noop_witness :
    sendMessage exBoundState exEnvOk "" none none =
      { state := exBoundState, calls := [], console := [] } :=
  send_empty_noop exBoundState exEnvOk "" none (by decide)

/-- Claim C9, counterexample: a send that passes the non-empty
precondition but needs lazy session creation that fails issues no
creation request at all, contradicting the claim that exactly one of the
two creation endpoints is called for every such send. -/
theorem routing_zero_calls_on_session_failure :
    ¬(jsTrimEmpty "hi" = true ∧ jsStrTruthy (none : Option String) = false) ∧
    creationCalls (sendMessage exFreshState exEnvNoSession "hi" none none).calls = [] := by
  exact ⟨by decide, by decide⟩

/-- Claim C9, amended: for every send that passes the non-empty
precondition and for which a session id is available (already bound, or
lazily created with success), exactly one creation request is issued, and
it is the attachment-aware with-rag endpoint with content, sender,
file_url and file_name when an attachment URL is present, and the plain
messages endpoint with content and sender otherwise. -/
theorem creation_endpoint_routing (st : ChatState) (env : SendEnv)
    (content : String) (fileUrl fileName : Option String) (sid : String)
    (hguard : ¬(jsTrimEmpty content = true ∧ jsStrTruthy fileUrl = false))
    (hsid : st.currentSessionId = some sid ∨
      (st.currentSessionId = none ∧ env.createSessionResult = some sid)) :
    creationCalls (sendMessage st env content fileUrl fileName).calls =
      [if jsStrTruthy fileUrl then
        ApiCall.postMessagesWithRag sid content "user" (fileUrl.getD "") fileName
       else ApiCall.postMessages sid content "user"] := by
  rcases hsid with h | ⟨h1, h2⟩
  · by_cases hf : jsStrTruthy fileUrl = true
    · simp [sendMessage, hguard, h, hf, creationCalls]
    · have hA : jsTrimEmpty content ≠ true := fun hA => hguard ⟨hA, by simpa using hf⟩
      simp [sendMessage, h, hf, hA, creationCalls]
  · by_cases hf : jsStrTruthy fileUrl = true
    · simp [sendMessage, hguard, h1, h2, createSession, hf, creationCalls]
    · have hA : jsTrimEmpty content ≠ true := fun hA => hguard ⟨hA, by simpa using hf⟩
      simp [sendMessage, h1, h2, createSession, hf, hA, creationCalls]

/-- Witness for the amended C9: an attachment-bearing send on a bound
session goes to the with-rag endpoint. -/
theorem creation_endpoint_routing_witness :
    creationCalls (sendMessage exBoundState exEnvOk "hi"
        (some "http://x/doc.pdf") (some "doc.pdf")).calls =
      [if jsStrTruthy (some "http://x/doc.pdf") then
        ApiCall.postMessagesWithRag "s1" "hi" "user"
          ((some "http://x/doc.pdf").getD "") (some "doc.pdf")
       else ApiCall.postMessages "s1" "hi" "user"] :=
  creation_endpoint_routing exBoundState exEnvOk "hi"
    (some "http://x/doc.pdf") (some "doc.pdf") "s1" (by decide) (Or.inl rfl)

/-- Claim C10: every optimistic entry takes its identifier from the
millisecond clock read while it is built (Date.now in the source, the now
field of the environment here); consequently two sends whose environments
read the same clock value produce two log entries with equal identifiers,
as the concrete double send at clock 42 shows. Freshness is assumed, not
enforced. -/
theorem optimistic_id_clock_collision :
    (∀ (st : ChatState) (env : SendEnv) (content : String)
        (fileUrl fileName : Option String) (sid : String),
      st.currentSessionId = some sid →
      ¬(jsTrimEmpty content = true ∧ jsStrTruthy fileUrl = false) →
      ∃ m : Message,
        (sendMessage st env content fileUrl fileName).state.messages =
          st.messages ++ [m] ∧ m.id = env.now) ∧
    (logIds (sendMessage (sendMessage exBoundState exEnvOk "a" none none).state
        exEnvOk "b" none none).state.messages = [42, 42] ∧
     ¬ NodupIds (sendMessage (sendMessage exBoundState exEnvOk "a" none none).state
        exEnvOk "b" none none).state.messages) := by
  constructor
  · intro st env content fileUrl fileName sid hsid hguard
    refine ⟨{ id := env.now, content := content, sender := "user",
              timestamp := env.nowIso, file_url := fileUrl,
              file_name := fileName }, ?_, rfl⟩
    simp [sendMessage, hguard, hsid, appendOptimistic]
  · exact ⟨by decide, by decide⟩

/-- Witness for C10: the first conjunct applied to the concrete bound
state and environment reading clock value 42. -/
theorem optimistic_id_clock_collision_witness :
    ∃ m : Message,
      (sendMessage exBoundState exEnvOk "a" none none).state.messages =
        exBoundState.messages ++ [m] ∧ m.id = exEnvOk.now :=
  optimistic_id_clock_collision.1 exBoundState exEnvOk "a" none none "s1"
    rfl (by decide)
